import Mathlib

/-!
Shallow embedding of `folly::IPAddressV6` (src/data/programming_languages/cpp/IPAddressV6.cpp).

An IPv6 address is a 16-byte buffer plus a 16-bit scope id.  Bytes are
modelled as `Nat`; well-formedness (length 16, every byte < 256) is carried
as hypotheses where the arithmetic needs it.  Fallible operations (those
that throw in C++) return `Option`.
-/

namespace Folly

/-- The address value: `addr_.bytes_` (16 bytes) and `scope_`
(default-initialized to 0 in the header, per the spec's data model). -/
structure IPAddressV6 where
  bytes_ : List Nat
  scope_ : Nat
deriving DecidableEq, Repr

/-- Well-formedness of the 16-byte buffer: length 16 and bytes in range. -/
def WF (a : IPAddressV6) : Prop :=
  a.bytes_.length = 16 ∧ ∀ b ∈ a.bytes_, b < 256

/-- `IPAddressV6::bitCount()` = 128. -/
def bitCount : Nat := 128

/-- `IPAddressV6::PREFIX_TEREDO` (line 34). -/
def PREFIX_TEREDO : Nat := 0x20010000

/-- `IPAddressV6::PREFIX_6TO4` (line 35). -/
def PREFIX_6TO4 : Nat := 0x2002

/-- The static mask table `IPAddressV6::masks_` (lines 412-929), transcribed
entry for entry: one 16-byte mask per prefix length 0..128. -/
def masks_ : List (List Nat) := [
  [0x00,0x00,0x00,0x00,0x00,0x00,0x00,0x00,0x00,0x00,0x00,0x00,0x00,0x00,0x00,0x00],
  [0x80,0x00,0x00,0x00,0x00,0x00,0x00,0x00,0x00,0x00,0x00,0x00,0x00,0x00,0x00,0x00],
  [0xc0,0x00,0x00,0x00,0x00,0x00,0x00,0x00,0x00,0x00,0x00,0x00,0x00,0x00,0x00,0x00],
  [0xe0,0x00,0x00,0x00,0x00,0x00,0x00,0x00,0x00,0x00,0x00,0x00,0x00,0x00,0x00,0x00],
  [0xf0,0x00,0x00,0x00,0x00,0x00,0x00,0x00,0x00,0x00,0x00,0x00,0x00,0x00,0x00,0x00],
  [0xf8,0x00,0x00,0x00,0x00,0x00,0x00,0x00,0x00,0x00,0x00,0x00,0x00,0x00,0x00,0x00],
  [0xfc,0x00,0x00,0x00,0x00,0x00,0x00,0x00,0x00,0x00,0x00,0x00,0x00,0x00,0x00,0x00],
  [0xfe,0x00,0x00,0x00,0x00,0x00,0x00,0x00,0x00,0x00,0x00,0x00,0x00,0x00,0x00,0x00],
  [0xff,0x00,0x00,0x00,0x00,0x00,0x00,0x00,0x00,0x00,0x00,0x00,0x00,0x00,0x00,0x00],
  [0xff,0x80,0x00,0x00,0x00,0x00,0x00,0x00,0x00,0x00,0x00,0x00,0x00,0x00,0x00,0x00],
  [0xff,0xc0,0x00,0x00,0x00,0x00,0x00,0x00,0x00,0x00,0x00,0x00,0x00,0x00,0x00,0x00],
  [0xff,0xe0,0x00,0x00,0x00,0x00,0x00,0x00,0x00,0x00,0x00,0x00,0x00,0x00,0x00,0x00],
  [0xff,0xf0,0x00,0x00,0x00,0x00,0x00,0x00,0x00,0x00,0x00,0x00,0x00,0x00,0x00,0x00],
  [0xff,0xf8,0x00,0x00,0x00,0x00,0x00,0x00,0x00,0x00,0x00,0x00,0x00,0x00,0x00,0x00],
  [0xff,0xfc,0x00,0x00,0x00,0x00,0x00,0x00,0x00,0x00,0x00,0x00,0x00,0x00,0x00,0x00],
  [0xff,0xfe,0x00,0x00,0x00,0x00,0x00,0x00,0x00,0x00,0x00,0x00,0x00,0x00,0x00,0x00],
  [0xff,0xff,0x00,0x00,0x00,0x00,0x00,0x00,0x00,0x00,0x00,0x00,0x00,0x00,0x00,0x00],
  [0xff,0xff,0x80,0x00,0x00,0x00,0x00,0x00,0x00,0x00,0x00,0x00,0x00,0x00,0x00,0x00],
  [0xff,0xff,0xc0,0x00,0x00,0x00,0x00,0x00,0x00,0x00,0x00,0x00,0x00,0x00,0x00,0x00],
  [0xff,0xff,0xe0,0x00,0x00,0x00,0x00,0x00,0x00,0x00,0x00,0x00,0x00,0x00,0x00,0x00],
  [0xff,0xff,0xf0,0x00,0x00,0x00,0x00,0x00,0x00,0x00,0x00,0x00,0x00,0x00,0x00,0x00],
  [0xff,0xff,0xf8,0x00,0x00,0x00,0x00,0x00,0x00,0x00,0x00,0x00,0x00,0x00,0x00,0x00],
  [0xff,0xff,0xfc,0x00,0x00,0x00,0x00,0x00,0x00,0x00,0x00,0x00,0x00,0x00,0x00,0x00],
  [0xff,0xff,0xfe,0x00,0x00,0x00,0x00,0x00,0x00,0x00,0x00,0x00,0x00,0x00,0x00,0x00],
  [0xff,0xff,0xff,0x00,0x00,0x00,0x00,0x00,0x00,0x00,0x00,0x00,0x00,0x00,0x00,0x00],
  [0xff,0xff,0xff,0x80,0x00,0x00,0x00,0x00,0x00,0x00,0x00,0x00,0x00,0x00,0x00,0x00],
  [0xff,0xff,0xff,0xc0,0x00,0x00,0x00,0x00,0x00,0x00,0x00,0x00,0x00,0x00,0x00,0x00],
  [0xff,0xff,0xff,0xe0,0x00,0x00,0x00,0x00,0x00,0x00,0x00,0x00,0x00,0x00,0x00,0x00],
  [0xff,0xff,0xff,0xf0,0x00,0x00,0x00,0x00,0x00,0x00,0x00,0x00,0x00,0x00,0x00,0x00],
  [0xff,0xff,0xff,0xf8,0x00,0x00,0x00,0x00,0x00,0x00,0x00,0x00,0x00,0x00,0x00,0x00],
  [0xff,0xff,0xff,0xfc,0x00,0x00,0x00,0x00,0x00,0x00,0x00,0x00,0x00,0x00,0x00,0x00],
  [0xff,0xff,0xff,0xfe,0x00,0x00,0x00,0x00,0x00,0x00,0x00,0x00,0x00,0x00,0x00,0x00],
  [0xff,0xff,0xff,0xff,0x00,0x00,0x00,0x00,0x00,0x00,0x00,0x00,0x00,0x00,0x00,0x00],
  [0xff,0xff,0xff,0xff,0x80,0x00,0x00,0x00,0x00,0x00,0x00,0x00,0x00,0x00,0x00,0x00],
  [0xff,0xff,0xff,0xff,0xc0,0x00,0x00,0x00,0x00,0x00,0x00,0x00,0x00,0x00,0x00,0x00],
  [0xff,0xff,0xff,0xff,0xe0,0x00,0x00,0x00,0x00,0x00,0x00,0x00,0x00,0x00,0x00,0x00],
  [0xff,0xff,0xff,0xff,0xf0,0x00,0x00,0x00,0x00,0x00,0x00,0x00,0x00,0x00,0x00,0x00],
  [0xff,0xff,0xff,0xff,0xf8,0x00,0x00,0x00,0x00,0x00,0x00,0x00,0x00,0x00,0x00,0x00],
  [0xff,0xff,0xff,0xff,0xfc,0x00,0x00,0x00,0x00,0x00,0x00,0x00,0x00,0x00,0x00,0x00],
  [0xff,0xff,0xff,0xff,0xfe,0x00,0x00,0x00,0x00,0x00,0x00,0x00,0x00,0x00,0x00,0x00],
  [0xff,0xff,0xff,0xff,0xff,0x00,0x00,0x00,0x00,0x00,0x00,0x00,0x00,0x00,0x00,0x00],
  [0xff,0xff,0xff,0xff,0xff,0x80,0x00,0x00,0x00,0x00,0x00,0x00,0x00,0x00,0x00,0x00],
  [0xff,0xff,0xff,0xff,0xff,0xc0,0x00,0x00,0x00,0x00,0x00,0x00,0x00,0x00,0x00,0x00],
  [0xff,0xff,0xff,0xff,0xff,0xe0,0x00,0x00,0x00,0x00,0x00,0x00,0x00,0x00,0x00,0x00],
  [0xff,0xff,0xff,0xff,0xff,0xf0,0x00,0x00,0x00,0x00,0x00,0x00,0x00,0x00,0x00,0x00],
  [0xff,0xff,0xff,0xff,0xff,0xf8,0x00,0x00,0x00,0x00,0x00,0x00,0x00,0x00,0x00,0x00],
  [0xff,0xff,0xff,0xff,0xff,0xfc,0x00,0x00,0x00,0x00,0x00,0x00,0x00,0x00,0x00,0x00],
  [0xff,0xff,0xff,0xff,0xff,0xfe,0x00,0x00,0x00,0x00,0x00,0x00,0x00,0x00,0x00,0x00],
  [0xff,0xff,0xff,0xff,0xff,0xff,0x00,0x00,0x00,0x00,0x00,0x00,0x00,0x00,0x00,0x00],
  [0xff,0xff,0xff,0xff,0xff,0xff,0x80,0x00,0x00,0x00,0x00,0x00,0x00,0x00,0x00,0x00],
  [0xff,0xff,0xff,0xff,0xff,0xff,0xc0,0x00,0x00,0x00,0x00,0x00,0x00,0x00,0x00,0x00],
  [0xff,0xff,0xff,0xff,0xff,0xff,0xe0,0x00,0x00,0x00,0x00,0x00,0x00,0x00,0x00,0x00],
  [0xff,0xff,0xff,0xff,0xff,0xff,0xf0,0x00,0x00,0x00,0x00,0x00,0x00,0x00,0x00,0x00],
  [0xff,0xff,0xff,0xff,0xff,0xff,0xf8,0x00,0x00,0x00,0x00,0x00,0x00,0x00,0x00,0x00],
  [0xff,0xff,0xff,0xff,0xff,0xff,0xfc,0x00,0x00,0x00,0x00,0x00,0x00,0x00,0x00,0x00],
  [0xff,0xff,0xff,0xff,0xff,0xff,0xfe,0x00,0x00,0x00,0x00,0x00,0x00,0x00,0x00,0x00],
  [0xff,0xff,0xff,0xff,0xff,0xff,0xff,0x00,0x00,0x00,0x00,0x00,0x00,0x00,0x00,0x00],
  [0xff,0xff,0xff,0xff,0xff,0xff,0xff,0x80,0x00,0x00,0x00,0x00,0x00,0x00,0x00,0x00],
  [0xff,0xff,0xff,0xff,0xff,0xff,0xff,0xc0,0x00,0x00,0x00,0x00,0x00,0x00,0x00,0x00],
  [0xff,0xff,0xff,0xff,0xff,0xff,0xff,0xe0,0x00,0x00,0x00,0x00,0x00,0x00,0x00,0x00],
  [0xff,0xff,0xff,0xff,0xff,0xff,0xff,0xf0,0x00,0x00,0x00,0x00,0x00,0x00,0x00,0x00],
  [0xff,0xff,0xff,0xff,0xff,0xff,0xff,0xf8,0x00,0x00,0x00,0x00,0x00,0x00,0x00,0x00],
  [0xff,0xff,0xff,0xff,0xff,0xff,0xff,0xfc,0x00,0x00,0x00,0x00,0x00,0x00,0x00,0x00],
  [0xff,0xff,0xff,0xff,0xff,0xff,0xff,0xfe,0x00,0x00,0x00,0x00,0x00,0x00,0x00,0x00],
  [0xff,0xff,0xff,0xff,0xff,0xff,0xff,0xff,0x00,0x00,0x00,0x00,0x00,0x00,0x00,0x00],
  [0xff,0xff,0xff,0xff,0xff,0xff,0xff,0xff,0x80,0x00,0x00,0x00,0x00,0x00,0x00,0x00],
  [0xff,0xff,0xff,0xff,0xff,0xff,0xff,0xff,0xc0,0x00,0x00,0x00,0x00,0x00,0x00,0x00],
  [0xff,0xff,0xff,0xff,0xff,0xff,0xff,0xff,0xe0,0x00,0x00,0x00,0x00,0x00,0x00,0x00],
  [0xff,0xff,0xff,0xff,0xff,0xff,0xff,0xff,0xf0,0x00,0x00,0x00,0x00,0x00,0x00,0x00],
  [0xff,0xff,0xff,0xff,0xff,0xff,0xff,0xff,0xf8,0x00,0x00,0x00,0x00,0x00,0x00,0x00],
  [0xff,0xff,0xff,0xff,0xff,0xff,0xff,0xff,0xfc,0x00,0x00,0x00,0x00,0x00,0x00,0x00],
  [0xff,0xff,0xff,0xff,0xff,0xff,0xff,0xff,0xfe,0x00,0x00,0x00,0x00,0x00,0x00,0x00],
  [0xff,0xff,0xff,0xff,0xff,0xff,0xff,0xff,0xff,0x00,0x00,0x00,0x00,0x00,0x00,0x00],
  [0xff,0xff,0xff,0xff,0xff,0xff,0xff,0xff,0xff,0x80,0x00,0x00,0x00,0x00,0x00,0x00],
  [0xff,0xff,0xff,0xff,0xff,0xff,0xff,0xff,0xff,0xc0,0x00,0x00,0x00,0x00,0x00,0x00],
  [0xff,0xff,0xff,0xff,0xff,0xff,0xff,0xff,0xff,0xe0,0x00,0x00,0x00,0x00,0x00,0x00],
  [0xff,0xff,0xff,0xff,0xff,0xff,0xff,0xff,0xff,0xf0,0x00,0x00,0x00,0x00,0x00,0x00],
  [0xff,0xff,0xff,0xff,0xff,0xff,0xff,0xff,0xff,0xf8,0x00,0x00,0x00,0x00,0x00,0x00],
  [0xff,0xff,0xff,0xff,0xff,0xff,0xff,0xff,0xff,0xfc,0x00,0x00,0x00,0x00,0x00,0x00],
  [0xff,0xff,0xff,0xff,0xff,0xff,0xff,0xff,0xff,0xfe,0x00,0x00,0x00,0x00,0x00,0x00],
  [0xff,0xff,0xff,0xff,0xff,0xff,0xff,0xff,0xff,0xff,0x00,0x00,0x00,0x00,0x00,0x00],
  [0xff,0xff,0xff,0xff,0xff,0xff,0xff,0xff,0xff,0xff,0x80,0x00,0x00,0x00,0x00,0x00],
  [0xff,0xff,0xff,0xff,0xff,0xff,0xff,0xff,0xff,0xff,0xc0,0x00,0x00,0x00,0x00,0x00],
  [0xff,0xff,0xff,0xff,0xff,0xff,0xff,0xff,0xff,0xff,0xe0,0x00,0x00,0x00,0x00,0x00],
  [0xff,0xff,0xff,0xff,0xff,0xff,0xff,0xff,0xff,0xff,0xf0,0x00,0x00,0x00,0x00,0x00],
  [0xff,0xff,0xff,0xff,0xff,0xff,0xff,0xff,0xff,0xff,0xf8,0x00,0x00,0x00,0x00,0x00],
  [0xff,0xff,0xff,0xff,0xff,0xff,0xff,0xff,0xff,0xff,0xfc,0x00,0x00,0x00,0x00,0x00],
  [0xff,0xff,0xff,0xff,0xff,0xff,0xff,0xff,0xff,0xff,0xfe,0x00,0x00,0x00,0x00,0x00],
  [0xff,0xff,0xff,0xff,0xff,0xff,0xff,0xff,0xff,0xff,0xff,0x00,0x00,0x00,0x00,0x00],
  [0xff,0xff,0xff,0xff,0xff,0xff,0xff,0xff,0xff,0xff,0xff,0x80,0x00,0x00,0x00,0x00],
  [0xff,0xff,0xff,0xff,0xff,0xff,0xff,0xff,0xff,0xff,0xff,0xc0,0x00,0x00,0x00,0x00],
  [0xff,0xff,0xff,0xff,0xff,0xff,0xff,0xff,0xff,0xff,0xff,0xe0,0x00,0x00,0x00,0x00],
  [0xff,0xff,0xff,0xff,0xff,0xff,0xff,0xff,0xff,0xff,0xff,0xf0,0x00,0x00,0x00,0x00],
  [0xff,0xff,0xff,0xff,0xff,0xff,0xff,0xff,0xff,0xff,0xff,0xf8,0x00,0x00,0x00,0x00],
  [0xff,0xff,0xff,0xff,0xff,0xff,0xff,0xff,0xff,0xff,0xff,0xfc,0x00,0x00,0x00,0x00],
  [0xff,0xff,0xff,0xff,0xff,0xff,0xff,0xff,0xff,0xff,0xff,0xfe,0x00,0x00,0x00,0x00],
  [0xff,0xff,0xff,0xff,0xff,0xff,0xff,0xff,0xff,0xff,0xff,0xff,0x00,0x00,0x00,0x00],
  [0xff,0xff,0xff,0xff,0xff,0xff,0xff,0xff,0xff,0xff,0xff,0xff,0x80,0x00,0x00,0x00],
  [0xff,0xff,0xff,0xff,0xff,0xff,0xff,0xff,0xff,0xff,0xff,0xff,0xc0,0x00,0x00,0x00],
  [0xff,0xff,0xff,0xff,0xff,0xff,0xff,0xff,0xff,0xff,0xff,0xff,0xe0,0x00,0x00,0x00],
  [0xff,0xff,0xff,0xff,0xff,0xff,0xff,0xff,0xff,0xff,0xff,0xff,0xf0,0x00,0x00,0x00],
  [0xff,0xff,0xff,0xff,0xff,0xff,0xff,0xff,0xff,0xff,0xff,0xff,0xf8,0x00,0x00,0x00],
  [0xff,0xff,0xff,0xff,0xff,0xff,0xff,0xff,0xff,0xff,0xff,0xff,0xfc,0x00,0x00,0x00],
  [0xff,0xff,0xff,0xff,0xff,0xff,0xff,0xff,0xff,0xff,0xff,0xff,0xfe,0x00,0x00,0x00],
  [0xff,0xff,0xff,0xff,0xff,0xff,0xff,0xff,0xff,0xff,0xff,0xff,0xff,0x00,0x00,0x00],
  [0xff,0xff,0xff,0xff,0xff,0xff,0xff,0xff,0xff,0xff,0xff,0xff,0xff,0x80,0x00,0x00],
  [0xff,0xff,0xff,0xff,0xff,0xff,0xff,0xff,0xff,0xff,0xff,0xff,0xff,0xc0,0x00,0x00],
  [0xff,0xff,0xff,0xff,0xff,0xff,0xff,0xff,0xff,0xff,0xff,0xff,0xff,0xe0,0x00,0x00],
  [0xff,0xff,0xff,0xff,0xff,0xff,0xff,0xff,0xff,0xff,0xff,0xff,0xff,0xf0,0x00,0x00],
  [0xff,0xff,0xff,0xff,0xff,0xff,0xff,0xff,0xff,0xff,0xff,0xff,0xff,0xf8,0x00,0x00],
  [0xff,0xff,0xff,0xff,0xff,0xff,0xff,0xff,0xff,0xff,0xff,0xff,0xff,0xfc,0x00,0x00],
  [0xff,0xff,0xff,0xff,0xff,0xff,0xff,0xff,0xff,0xff,0xff,0xff,0xff,0xfe,0x00,0x00],
  [0xff,0xff,0xff,0xff,0xff,0xff,0xff,0xff,0xff,0xff,0xff,0xff,0xff,0xff,0x00,0x00],
  [0xff,0xff,0xff,0xff,0xff,0xff,0xff,0xff,0xff,0xff,0xff,0xff,0xff,0xff,0x80,0x00],
  [0xff,0xff,0xff,0xff,0xff,0xff,0xff,0xff,0xff,0xff,0xff,0xff,0xff,0xff,0xc0,0x00],
  [0xff,0xff,0xff,0xff,0xff,0xff,0xff,0xff,0xff,0xff,0xff,0xff,0xff,0xff,0xe0,0x00],
  [0xff,0xff,0xff,0xff,0xff,0xff,0xff,0xff,0xff,0xff,0xff,0xff,0xff,0xff,0xf0,0x00],
  [0xff,0xff,0xff,0xff,0xff,0xff,0xff,0xff,0xff,0xff,0xff,0xff,0xff,0xff,0xf8,0x00],
  [0xff,0xff,0xff,0xff,0xff,0xff,0xff,0xff,0xff,0xff,0xff,0xff,0xff,0xff,0xfc,0x00],
  [0xff,0xff,0xff,0xff,0xff,0xff,0xff,0xff,0xff,0xff,0xff,0xff,0xff,0xff,0xfe,0x00],
  [0xff,0xff,0xff,0xff,0xff,0xff,0xff,0xff,0xff,0xff,0xff,0xff,0xff,0xff,0xff,0x00],
  [0xff,0xff,0xff,0xff,0xff,0xff,0xff,0xff,0xff,0xff,0xff,0xff,0xff,0xff,0xff,0x80],
  [0xff,0xff,0xff,0xff,0xff,0xff,0xff,0xff,0xff,0xff,0xff,0xff,0xff,0xff,0xff,0xc0],
  [0xff,0xff,0xff,0xff,0xff,0xff,0xff,0xff,0xff,0xff,0xff,0xff,0xff,0xff,0xff,0xe0],
  [0xff,0xff,0xff,0xff,0xff,0xff,0xff,0xff,0xff,0xff,0xff,0xff,0xff,0xff,0xff,0xf0],
  [0xff,0xff,0xff,0xff,0xff,0xff,0xff,0xff,0xff,0xff,0xff,0xff,0xff,0xff,0xff,0xf8],
  [0xff,0xff,0xff,0xff,0xff,0xff,0xff,0xff,0xff,0xff,0xff,0xff,0xff,0xff,0xff,0xfc],
  [0xff,0xff,0xff,0xff,0xff,0xff,0xff,0xff,0xff,0xff,0xff,0xff,0xff,0xff,0xff,0xfe],
  [0xff,0xff,0xff,0xff,0xff,0xff,0xff,0xff,0xff,0xff,0xff,0xff,0xff,0xff,0xff,0xff]
]

/-- `IPAddressV6::fetchMask` (lines 386-393): throws (`none`) when
`numBits > bitCount()`, otherwise a direct table lookup. -/
def fetchMask (numBits : Nat) : Option (List Nat) :=
  if numBits > bitCount then none else some (masks_.getD numBits [])

/-- Bit `i` of a 16-byte buffer, most-significant first:
bit 0 is the top bit of byte 0. -/
def bitAt (m : List Nat) (i : Nat) : Nat :=
  (m.getD (i / 8) 0 >>> (7 - i % 8)) &&& 1

/-- The spec's byte-level description of mask entry `n`: `floor(n/8)` leading
0xFF bytes, then (if `n mod 8` is nonzero) one byte with the top `n mod 8`
bits set, then zero bytes. -/
def maskByteSpec (n j : Nat) : Nat :=
  if j < n / 8 then 0xff
  else if j = n / 8 ∧ n % 8 ≠ 0 then 256 - 2 ^ (8 - n % 8)
  else 0

/-- `unpack` (lines 160-162): combines two bytes into a `uint16_t` as
`(hibyte << 8) | lobyte`; the `% 65536` models the `uint16_t` return
conversion. -/
def unpack (lobyte hibyte : Nat) : Nat :=
  ((hibyte <<< 8) ||| lobyte) % 65536

/-- `unpackInto` (lines 166-174): `dest[i] = unpack(src[hi], src[lo])` with
`hi = 2*i+1`, `lo = 2*i`, for `i < count`. -/
def unpackInto (src : List Nat) (count : Nat) : List Nat :=
  (List.range count).map (fun i => unpack (src.getD (2*i+1) 0) (src.getD (2*i) 0))

/-- `IPAddressV6::Type` (declared in the header, used at lines 222-230). -/
inductive AddrType
  | TEREDO
  | T6TO4
  | NORMAL
deriving DecidableEq, Repr

/-- `IPAddressV6::type()` (lines 217-231).  The `% 4294967296` models the
`uint32_t` arithmetic of `((uint32_t)ints[0] << 16) | ints[1]` (a no-op
since both words are below 2^16). -/
def typeOf (a : IPAddressV6) : AddrType :=
  let ints := unpackInto a.bytes_ 2
  if (((ints.getD 0 0) <<< 16) ||| ints.getD 1 0) % 4294967296 = PREFIX_TEREDO then
    AddrType.TEREDO
  else if ints.getD 0 0 = PREFIX_6TO4 then
    AddrType.T6TO4
  else
    AddrType.NORMAL

/-- Modelled from the spec: `is6To4()` is declared in the header, which is
not under src/; the spec says `getIPv4For6To4` "fails with
`TypeMismatchError` unless `classifyType == SixToFour`", so `is6To4` holds
iff the classification is 6to4. -/
def is6To4 (a : IPAddressV6) : Bool :=
  typeOf a = AddrType.T6TO4

/-- `IPAddressV6::getIPv4For6To4` (lines 177-195).  The external
`IPAddressV4` result is modelled as its four octets, in the order the
union `ipv4.bytes[0..3]` is filled. -/
def getIPv4For6To4 (a : IPAddressV6) : Option (List Nat) :=
  if !is6To4 a then none
  else
    let ints := unpackInto a.bytes_ 4
    some [((ints.getD 1 0) &&& 0xFF00) >>> 8, (ints.getD 1 0) &&& 0x00FF,
          ((ints.getD 2 0) &&& 0xFF00) >>> 8, (ints.getD 2 0) &&& 0x00FF]

/-- `IPAddressV6::isIPv4Mapped` (lines 198-214): first 10 bytes zero and
bytes 10, 11 both 0xff. -/
def isIPv4Mapped (a : IPAddressV6) : Bool :=
  ((List.range 10).all fun i => a.bytes_.getD i 0 == 0x00) &&
  (a.bytes_.getD 10 0 == 0xff && a.bytes_.getD 11 0 == 0xff)

/-- `IPAddressV6::createIPv4` (lines 151-157): throws (`none`) unless
`isIPv4Mapped`, else the IPv4 made of bytes 12..15
(`detail::Bytes::mkAddress4(&by[12])`; the spec says it "extracts bytes
12-15 as the IPv4 value"). -/
def createIPv4 (a : IPAddressV6) : Option (List Nat) :=
  if !isIPv4Mapped a then none
  else some [a.bytes_.getD 12 0, a.bytes_.getD 13 0,
             a.bytes_.getD 14 0, a.bytes_.getD 15 0]

/-- Modelled from the spec: `IPAddress::createIPv4` (in IPAddress.cpp, not
under src/) yields "the embedded IPv4 address", i.e. the same bytes 12..15
extraction as `IPAddressV6::createIPv4` performs on a mapped address. -/
def ipAddressCreateIPv4 (a : IPAddressV6) : List Nat :=
  [a.bytes_.getD 12 0, a.bytes_.getD 13 0, a.bytes_.getD 14 0, a.bytes_.getD 15 0]

/-- `AF_INET6`, the seed of the non-mapped hash branch (line 248). -/
def AF_INET6 : Nat := 10

/-- `IPAddressV6::hash` (lines 240-252), parameterized by the external
primitives: the IPv4 hash (the reference), `SpookyHashV2::Hash128` and
`hash_combine`. -/
def hashV6 (hashV4 : List Nat → Nat) (spookyHash128 : List Nat → Nat × Nat)
    (hashCombine : Nat → Nat → Nat → Nat) (a : IPAddressV6) : Nat :=
  if isIPv4Mapped a then
    hashV4 (ipAddressCreateIPv4 a)
  else
    hashCombine AF_INET6 (spookyHash128 a.bytes_).1 (spookyHash128 a.bytes_).2

/-- `IPAddressV6::setFromBinary` (lines 139-148) exposed as construction
from a binary buffer (`fromBinary`): throws (`none`) unless the input is
exactly 16 bytes; on success copies the bytes and resets the scope to 0. -/
def fromBinary (bytes : List Nat) : Option IPAddressV6 :=
  if bytes.length ≠ 16 then none
  else some { bytes_ := bytes, scope_ := 0 }

/-- `IPAddressV6::AddressStorage::AddressStorage(MacAddress)`
(lines 124-137): the modified EUI-64 link-local byte layout. -/
def addressStorageOfMac (macBytes : List Nat) : List Nat :=
  [0xfe, 0x80, 0x00, 0x00, 0x00, 0x00, 0x00, 0x00,
   macBytes.getD 0 0 ^^^ 0x02, macBytes.getD 1 0, macBytes.getD 2 0,
   0xff, 0xfe,
   macBytes.getD 3 0, macBytes.getD 4 0, macBytes.getD 5 0]

/-- The link-local constructor `IPAddressV6(LinkLocalTag, MacAddress)`
(lines 120-122): stores the EUI-64 bytes; scope stays at its default 0. -/
def linkLocalOfMac (macBytes : List Nat) : IPAddressV6 :=
  { bytes_ := addressStorageOfMac macBytes, scope_ := 0 }

/-- `IPAddressV6::isMulticast` (lines 312-314): byte 0 is 0xff. -/
def isMulticast (a : IPAddressV6) : Bool :=
  a.bytes_.getD 0 0 == 0xff

/-- `IPAddressV6::getSolicitedNodeAddress` (lines 326-337): the fixed
`ff02::1:ff` pattern with bytes 13..15 copied from the receiver, rebuilt
through `fromBinary`. -/
def getSolicitedNodeAddress (a : IPAddressV6) : Option IPAddressV6 :=
  fromBinary [0xff, 0x02, 0x00, 0x00, 0x00, 0x00, 0x00, 0x00,
              0x00, 0x00, 0x00, 0x01, 0xff,
              a.bytes_.getD 13 0, a.bytes_.getD 14 0, a.bytes_.getD 15 0]

/-- Modelled from the spec: `detail::Bytes::mask` (in
folly/detail/IPAddressSource.h, not under src/) is the "byte-wise AND of
two 16-byte buffers" primitive. -/
def bytesMask (a b : List Nat) : List Nat :=
  List.zipWith (fun x y => x &&& y) a b

/-- `IPAddressV6::mask(numBits)` (lines 340-348): throws (`none`) when
`numBits > bitCount()`, else ANDs the buffer with the fetched mask and
rebuilds via the `ByteArray16` constructor (lines 114-117), whose scope is
the default 0. -/
def maskAddr (a : IPAddressV6) (numBits : Nat) : Option IPAddressV6 :=
  if numBits > bitCount then none
  else
    match fetchMask numBits with
    | none => none
    | some m => some { bytes_ := bytesMask m a.bytes_, scope_ := 0 }

/-- The spec's byte-level mask table: entry `n` lists
`maskByteSpec n 0 .. maskByteSpec n 15`. -/
def maskTableSpec : List (List Nat) :=
  (List.range 129).map (fun n => (List.range 16).map (maskByteSpec n))

/-! ## Helper lemmas -/

theorem getD_of_lt {α : Type} (l : List α) (d : α) (i : Nat) (h : i < l.length) :
    l.getD i d = l[i] := by
  simp [List.getElem?_eq_getElem h]

theorem byte_lt (a : IPAddressV6) (h : WF a) (i : Nat) (hi : i < 16) :
    a.bytes_.getD i 0 < 256 := by
  have hl : i < a.bytes_.length := by rw [h.1]; exact hi
  rw [getD_of_lt _ _ _ hl]
  exact h.2 _ (List.getElem_mem hl)

theorem shiftLeft_lor_eq {k : Nat} (a : Nat) {b : Nat} (hb : b < 2 ^ k) :
    (a <<< k) ||| b = a * 2 ^ k + b := by
  rw [Nat.shiftLeft_eq, Nat.mul_comm a (2 ^ k)]
  exact (Nat.mul_add_lt_is_or hb a).symm

theorem unpack_eq (lobyte hibyte : Nat) (hlo : lobyte < 256) (hhi : hibyte < 256) :
    unpack lobyte hibyte = hibyte * 256 + lobyte := by
  unfold unpack
  rw [shiftLeft_lor_eq hibyte (show lobyte < 2 ^ 8 by omega)]
  have e : (2 : Nat) ^ 8 = 256 := by norm_num
  rw [e]
  exact Nat.mod_eq_of_lt (by omega)

theorem unpackInto_getD (src : List Nat) (count i : Nat) (h : i < count) :
    (unpackInto src count).getD i 0 =
      unpack (src.getD (2 * i + 1) 0) (src.getD (2 * i) 0) := by
  unfold unpackInto
  have hl : i < ((List.range count).map
      (fun i => unpack (src.getD (2 * i + 1) 0) (src.getD (2 * i) 0))).length := by
    simpa using h
  rw [getD_of_lt _ _ _ hl]
  simp

/-! ## C8: construction from a binary buffer -/

/-- C8: constructing from a byte sequence `b` succeeds iff `b` has exactly
16 bytes (failing with `AddressFormatError`, i.e. `none`, otherwise); on
success the stored buffer is `b` exactly and the scope id is 0. -/
theorem fromBinary_spec : ∀ bytes : List Nat,
    ((∃ r, fromBinary bytes = some r) ↔ bytes.length = 16) ∧
    (∀ r, fromBinary bytes = some r → r.bytes_ = bytes ∧ r.scope_ = 0) := by
  intro b
  unfold fromBinary
  by_cases h : b.length = 16
  · constructor
    · simp [h]
    · intro r hr
      rw [if_neg (by omega)] at hr
      cases hr
      exact ⟨rfl, rfl⟩
  · constructor
    · simp [h]
    · intro r hr
      rw [if_pos (by omega)] at hr
      cases hr

/-- Witness for C8 at the all-zero 16-byte buffer. -/
theorem fromBinary_spec_witness :
    ∃ r, fromBinary (List.replicate 16 0) = some r :=
  (fromBinary_spec (List.replicate 16 0)).1.mpr (by decide)

/-! ## C6: link-local derivation from a MAC address -/

/-- C6: for a 6-byte MAC, the link-local constructor yields
`fe 80 00 00 00 00 00 00`, then `mac[0] XOR 0x02`, `mac[1]`, `mac[2]`,
`ff fe`, `mac[3]`, `mac[4]`, `mac[5]`; in particular MAC
`00:11:22:33:44:55` yields `fe80::0211:22ff:fe33:4455`. -/
theorem linkLocal_spec :
    (∀ macBytes : List Nat, macBytes.length = 6 →
      (linkLocalOfMac macBytes).bytes_ =
        [0xfe, 0x80, 0x00, 0x00, 0x00, 0x00, 0x00, 0x00,
         macBytes.getD 0 0 ^^^ 0x02, macBytes.getD 1 0, macBytes.getD 2 0,
         0xff, 0xfe,
         macBytes.getD 3 0, macBytes.getD 4 0, macBytes.getD 5 0]) ∧
    (linkLocalOfMac [0x00, 0x11, 0x22, 0x33, 0x44, 0x55]).bytes_ =
      [0xfe, 0x80, 0x00, 0x00, 0x00, 0x00, 0x00, 0x00,
       0x02, 0x11, 0x22, 0xff, 0xfe, 0x33, 0x44, 0x55] := by
  exact ⟨fun _ _ => rfl, by decide⟩

/-- Witness for C6 at MAC `02:42:ac:11:00:02`. -/
theorem linkLocal_spec_witness :
    (linkLocalOfMac [0x02, 0x42, 0xac, 0x11, 0x00, 0x02]).bytes_ =
      [0xfe, 0x80, 0x00, 0x00, 0x00, 0x00, 0x00, 0x00,
       0x00, 0x42, 0xac, 0xff, 0xfe, 0x11, 0x00, 0x02] := by
  rw [linkLocal_spec.1 [0x02, 0x42, 0xac, 0x11, 0x00, 0x02] (by decide)]
  decide

/-! ## C7: solicited-node address -/

/-- C7: for a non-multicast address, `getSolicitedNodeAddress` returns
`ff02::1:ffXX:XXXX`: bytes 0..12 are
`ff 02 00 00 00 00 00 00 00 00 00 01 ff` and bytes 13..15 are copied from
the receiver. -/
theorem solicitedNode_spec : ∀ a : IPAddressV6, isMulticast a = false →
    getSolicitedNodeAddress a = some
      { bytes_ := [0xff, 0x02, 0x00, 0x00, 0x00, 0x00, 0x00, 0x00,
                   0x00, 0x00, 0x00, 0x01, 0xff,
                   a.bytes_.getD 13 0, a.bytes_.getD 14 0, a.bytes_.getD 15 0],
        scope_ := 0 } := by
  intro a _
  unfold getSolicitedNodeAddress fromBinary
  rw [if_neg (by simp)]

/-- Witness for C7 at `fe80::1234:5678`. -/
theorem solicitedNode_spec_witness :
    getSolicitedNodeAddress
      { bytes_ := [0xfe, 0x80, 0, 0, 0, 0, 0, 0, 0, 0, 0, 0, 0x12, 0x34, 0x56, 0x78],
        scope_ := 0 } = some
      { bytes_ := [0xff, 0x02, 0, 0, 0, 0, 0, 0, 0, 0, 0, 0x01, 0xff, 0x34, 0x56, 0x78],
        scope_ := 0 } := by
  rw [solicitedNode_spec _ (by decide)]
  decide

/-! ## C10: masking resets the scope id -/

/-- C10: for `numBits <= 128`, the address returned by `mask` has scope
id 0, whatever the receiver's scope id was: the result is rebuilt from the
masked byte buffer alone. -/
theorem mask_scope_spec : ∀ (a : IPAddressV6) (numBits : Nat), numBits ≤ 128 →
    ∀ r, maskAddr a numBits = some r → r.scope_ = 0 := by
  intro a numBits hn r hr
  unfold maskAddr fetchMask bitCount at hr
  rw [if_neg (by omega)] at hr
  rw [if_neg (by omega)] at hr
  cases hr
  rfl

/-- Witness for C10: masking an address with nonzero scope id 5 yields
scope id 0. -/
theorem mask_scope_spec_witness :
    64 ≤ 128 ∧
    ∀ r, maskAddr { bytes_ := List.replicate 16 0xff, scope_ := 5 } 64 = some r →
      r.scope_ = 0 :=
  ⟨by decide, mask_scope_spec { bytes_ := List.replicate 16 0xff, scope_ := 5 } 64 (by decide)⟩

/-! ## C9: hash of an IPv4-mapped address -/

/-- C9: whenever `isIPv4Mapped` holds (bytes 0..9 zero, bytes 10..11 both
0xff), the hash equals the IPv4 hash of the embedded IPv4 address
`createIPv4(a)`, for any reference IPv4 hash function and any values of
the other hash primitives. -/
theorem hash_mapped_spec :
    ∀ (hashV4 : List Nat → Nat) (spookyHash128 : List Nat → Nat × Nat)
      (hashCombine : Nat → Nat → Nat → Nat) (a : IPAddressV6),
      isIPv4Mapped a = true →
      ∃ v4, createIPv4 a = some v4 ∧
        hashV6 hashV4 spookyHash128 hashCombine a = hashV4 v4 := by
  intro hv4 sp hc a h
  refine ⟨ipAddressCreateIPv4 a, ?_, ?_⟩
  · unfold createIPv4 ipAddressCreateIPv4
    rw [h]
    rfl
  · unfold hashV6
    rw [if_pos h]

/-- Witness for C9 at the mapped address `::ffff:1.2.3.4` with concrete
hash primitives. -/
theorem hash_mapped_spec_witness :
    ∃ v4, createIPv4 { bytes_ := [0, 0, 0, 0, 0, 0, 0, 0, 0, 0, 0xff, 0xff, 1, 2, 3, 4],
                       scope_ := 0 } = some v4 ∧
      hashV6 (fun l => l.foldl (fun acc b => acc * 1000 + b) 7)
        (fun _ => (0, 0)) (fun x y z => x + y + z)
        { bytes_ := [0, 0, 0, 0, 0, 0, 0, 0, 0, 0, 0xff, 0xff, 1, 2, 3, 4], scope_ := 0 } =
      (fun l => l.foldl (fun acc b => acc * 1000 + b) 7) v4 :=
  hash_mapped_spec (fun l => l.foldl (fun acc b => acc * 1000 + b) 7)
    (fun _ => (0, 0)) (fun x y z => x + y + z)
    { bytes_ := [0, 0, 0, 0, 0, 0, 0, 0, 0, 0, 0xff, 0xff, 1, 2, 3, 4], scope_ := 0 }
    (by decide)

/-! ## C1: mask table correctness -/

/-- The transcribed table coincides with the spec's generated table. -/
theorem masks_eq : masks_ = maskTableSpec := by rfl

/-- Bit `r` (most-significant first) of a byte whose top `s` bits are set. -/
theorem byte_bit : ∀ s < 9, ∀ r < 8,
    ((256 - 2 ^ (8 - s)) >>> (7 - r)) &&& 1 = if r < s then 1 else 0 := by
  decide

/-- `maskByteSpec` in closed form: byte `j` of mask `n` has its top
`min 8 (n - 8*j)` bits set. -/
theorem maskByteSpec_eq (n j : Nat) :
    maskByteSpec n j = 256 - 2 ^ (8 - min 8 (n - 8 * j)) := by
  unfold maskByteSpec
  by_cases h1 : j < n / 8
  · rw [if_pos h1]
    have e : min 8 (n - 8 * j) = 8 := by omega
    rw [e]
    norm_num
  · rw [if_neg h1]
    by_cases h2 : j = n / 8 ∧ n % 8 ≠ 0
    · rw [if_pos h2]
      have e : min 8 (n - 8 * j) = n % 8 := by omega
      rw [e]
    · rw [if_neg h2]
      have e : min 8 (n - 8 * j) = 0 := by omega
      rw [e]
      norm_num

/-- The bit-level reading of `maskByteSpec`: bit `i` (MSB first) is one
iff `i < n`. -/
theorem maskByteSpec_bit (n i : Nat) (_hn : n ≤ 128) (_hi : i < 128) :
    ((maskByteSpec n (i / 8)) >>> (7 - i % 8)) &&& 1 = if i < n then 1 else 0 := by
  rw [maskByteSpec_eq]
  have hs : min 8 (n - 8 * (i / 8)) < 9 := by omega
  have hr : i % 8 < 8 := by omega
  rw [byte_bit _ hs _ hr]
  by_cases hin : i < n
  · rw [if_pos hin, if_pos (by omega)]
  · rw [if_neg hin, if_neg (by omega)]

/-- C1: for `0 <= n <= 128`, `fetchMask n` succeeds and yields a 16-byte
mask whose byte `j` is `floor(n/8)` leading 0xFF bytes, then (if
`n mod 8` is nonzero) one byte with the top `n mod 8` bits set, then zero
bytes; equivalently its first `n` bits (most-significant first) are one
and the remaining `128 - n` bits are zero. -/
theorem fetchMask_spec : ∀ n : Nat, n ≤ 128 → ∃ m, fetchMask n = some m ∧
    m.length = 16 ∧
    (∀ j, j < 16 → m.getD j 0 = maskByteSpec n j) ∧
    (∀ i, i < 128 → bitAt m i = if i < n then 1 else 0) := by
  intro n hn
  refine ⟨(List.range 16).map (maskByteSpec n), ?_, by simp, ?_, ?_⟩
  · unfold fetchMask bitCount
    rw [if_neg (by omega)]
    rw [masks_eq]
    unfold maskTableSpec
    have hl : n < ((List.range 129).map
        (fun k => (List.range 16).map (maskByteSpec k))).length := by
      simpa using by omega
    rw [getD_of_lt _ _ _ hl]
    simp
  · intro j hj
    have hl : j < ((List.range 16).map (maskByteSpec n)).length := by simpa using hj
    rw [getD_of_lt _ _ _ hl]
    simp
  · intro i hi
    unfold bitAt
    have hl : i / 8 < ((List.range 16).map (maskByteSpec n)).length := by
      simpa using by omega
    rw [getD_of_lt _ _ _ hl]
    simp only [List.getElem_map, List.getElem_range]
    exact maskByteSpec_bit n i hn (by omega)

/-- Witness for C1 at `n = 9`: the mask is `ff 80 00 ... 00`. -/
theorem fetchMask_spec_witness :
    ∃ m, fetchMask 9 = some m ∧ m.length = 16 ∧
      (∀ j, j < 16 → m.getD j 0 = maskByteSpec 9 j) ∧
      (∀ i, i < 128 → bitAt m i = if i < 9 then 1 else 0) :=
  fetchMask_spec 9 (by decide)

/-! ## C2: mask(numBits) -/

/-- C2: `mask(numBits)` fails (with `InvalidPrefixLength`, i.e. `none`)
iff `numBits > 128`; for `numBits <= 128` it succeeds and the result's
buffer is the byte-wise AND of the receiver's buffer with the fetched
mask, and the result's length is 16 whenever the receiver is 16 bytes. -/
theorem mask_spec : ∀ (a : IPAddressV6) (numBits : Nat),
    (maskAddr a numBits = none ↔ 128 < numBits) ∧
    (numBits ≤ 128 → ∀ m, fetchMask numBits = some m →
      maskAddr a numBits = some
        { bytes_ := List.zipWith (fun x y => x &&& y) a.bytes_ m, scope_ := 0 } ∧
      (a.bytes_.length = 16 →
        (List.zipWith (fun x y => x &&& y) a.bytes_ m).length = 16)) := by
  intro a numBits
  constructor
  · unfold maskAddr fetchMask bitCount
    by_cases h : 128 < numBits
    · simp [h]
    · rw [if_neg (by omega), if_neg (by omega)]
      simp
      omega
  · intro hn m hm
    have hm16 : m.length = 16 := by
      obtain ⟨m', hfm, hlen, -, -⟩ := fetchMask_spec numBits hn
      rw [hfm] at hm
      cases hm
      exact hlen
    constructor
    · unfold maskAddr bitCount
      rw [if_neg (by omega)]
      rw [hm]
      have hcomm : bytesMask m a.bytes_ =
          List.zipWith (fun x y => x &&& y) a.bytes_ m := by
        unfold bytesMask
        exact List.zipWith_comm_of_comm _ (fun x y => Nat.land_comm x y) m a.bytes_
      simp only []
      rw [hcomm]
    · intro ha
      rw [List.length_zipWith, ha, hm16]
      decide

/-- Witness for C2 at `numBits = 12` on the all-0xab address. -/
theorem mask_spec_witness :
    12 ≤ 128 ∧ ∀ m, fetchMask 12 = some m →
      maskAddr { bytes_ := List.replicate 16 0xab, scope_ := 0 } 12 = some
        { bytes_ := List.zipWith (fun x y => x &&& y) (List.replicate 16 0xab) m,
          scope_ := 0 } ∧
      ((List.replicate 16 0xab : List Nat).length = 16 →
        (List.zipWith (fun x y => x &&& y) (List.replicate 16 0xab) m).length = 16) :=
  ⟨by decide, (mask_spec { bytes_ := List.replicate 16 0xab, scope_ := 0 } 12).2 (by decide)⟩

/-! ## C4: the word-unpacking convention -/

/-- Counterexample to C4 as stated: on the source bytes `20 01`, the
helper produces the word 0x2001, not `(src[1] << 8) | src[0]` = 0x0120. -/
theorem unpackInto_word_counterexample :
    ¬ ((unpackInto [0x20, 0x01] 1).getD 0 0 = (((0x01 : Nat) <<< 8) ||| 0x20)) := by
  decide

/-- C4 (amended): the i-th word is `(src[2i] << 8) | src[2i+1]` — `src[2i]`
is the high byte and `src[2i+1]` the low byte; the helper's lobyte/hibyte
parameter naming is misleading (the call passes `src[2i+1]` in the lobyte
position), and the net effect is the standard big-endian convention. -/
theorem unpackInto_word_spec : ∀ (src : List Nat) (count i : Nat), i < count →
    (∀ b ∈ src, b < 256) → 2 * i + 1 < src.length →
    (unpackInto src count).getD i 0 =
      ((src.getD (2 * i) 0) <<< 8) ||| (src.getD (2 * i + 1) 0) := by
  intro src count i hi hb hlen
  rw [unpackInto_getD _ _ _ hi]
  have hlo : src.getD (2 * i + 1) 0 < 256 := by
    rw [getD_of_lt _ _ _ hlen]
    exact hb _ (List.getElem_mem hlen)
  have hhi : src.getD (2 * i) 0 < 256 := by
    have h2 : 2 * i < src.length := by omega
    rw [getD_of_lt _ _ _ h2]
    exact hb _ (List.getElem_mem h2)
  rw [unpack_eq _ _ hlo hhi,
      shiftLeft_lor_eq (src.getD (2 * i) 0) (show src.getD (2 * i + 1) 0 < 2 ^ 8 by omega)]
  norm_num

/-- Witness for C4's amended theorem on the buffer `20 01 0d b8`. -/
theorem unpackInto_word_spec_witness :
    (unpackInto [0x20, 0x01, 0x0d, 0xb8] 2).getD 1 0 =
      (((0x0d : Nat) <<< 8) ||| 0xb8) := by
  have h := unpackInto_word_spec [0x20, 0x01, 0x0d, 0xb8] 2 1 (by decide)
    (by decide) (by decide)
  simpa using h

/-! ## C3: Teredo / 6to4 classification -/

/-- C3: `type()` returns `TEREDO` iff bytes 0..3 are `20 01 00 00`,
`T6TO4` iff it is not Teredo and bytes 0..1 are `20 02`, and `NORMAL`
iff neither prefix matches; in particular no address is classified as
both. -/
theorem type_spec : ∀ a : IPAddressV6, WF a →
    ((typeOf a = AddrType.TEREDO ↔
       (a.bytes_.getD 0 0 = 0x20 ∧ a.bytes_.getD 1 0 = 0x01 ∧
        a.bytes_.getD 2 0 = 0x00 ∧ a.bytes_.getD 3 0 = 0x00)) ∧
     (typeOf a = AddrType.T6TO4 ↔
       (¬(a.bytes_.getD 0 0 = 0x20 ∧ a.bytes_.getD 1 0 = 0x01 ∧
          a.bytes_.getD 2 0 = 0x00 ∧ a.bytes_.getD 3 0 = 0x00) ∧
        a.bytes_.getD 0 0 = 0x20 ∧ a.bytes_.getD 1 0 = 0x02)) ∧
     (typeOf a = AddrType.NORMAL ↔
       (¬(a.bytes_.getD 0 0 = 0x20 ∧ a.bytes_.getD 1 0 = 0x01 ∧
          a.bytes_.getD 2 0 = 0x00 ∧ a.bytes_.getD 3 0 = 0x00) ∧
        ¬(a.bytes_.getD 0 0 = 0x20 ∧ a.bytes_.getD 1 0 = 0x02))) ∧
     ¬(typeOf a = AddrType.TEREDO ∧ typeOf a = AddrType.T6TO4)) := by
  intro a hwf
  have hb0 : a.bytes_.getD 0 0 < 256 := byte_lt a hwf 0 (by norm_num)
  have hb1 : a.bytes_.getD 1 0 < 256 := byte_lt a hwf 1 (by norm_num)
  have hb2 : a.bytes_.getD 2 0 < 256 := byte_lt a hwf 2 (by norm_num)
  have hb3 : a.bytes_.getD 3 0 < 256 := byte_lt a hwf 3 (by norm_num)
  have h0 : (unpackInto a.bytes_ 2).getD 0 0 =
      a.bytes_.getD 0 0 * 256 + a.bytes_.getD 1 0 := by
    rw [unpackInto_getD _ _ 0 (by norm_num)]
    exact unpack_eq _ _ hb1 hb0
  have h1 : (unpackInto a.bytes_ 2).getD 1 0 =
      a.bytes_.getD 2 0 * 256 + a.bytes_.getD 3 0 := by
    rw [unpackInto_getD _ _ 1 (by norm_num)]
    exact unpack_eq _ _ hb3 hb2
  have hcond : ((((unpackInto a.bytes_ 2).getD 0 0) <<< 16) |||
      (unpackInto a.bytes_ 2).getD 1 0) % 4294967296 =
      (a.bytes_.getD 0 0 * 256 + a.bytes_.getD 1 0) * 65536 +
      (a.bytes_.getD 2 0 * 256 + a.bytes_.getD 3 0) := by
    rw [h0, h1, shiftLeft_lor_eq _ (show a.bytes_.getD 2 0 * 256 + a.bytes_.getD 3 0 <
      2 ^ 16 by omega)]
    have e : (2 : Nat) ^ 16 = 65536 := by norm_num
    rw [e]
    exact Nat.mod_eq_of_lt (by omega)
  simp only [typeOf, PREFIX_TEREDO, PREFIX_6TO4]
  rw [hcond, h0]
  split_ifs with hA hB
  · have hT : a.bytes_.getD 0 0 = 0x20 ∧ a.bytes_.getD 1 0 = 0x01 ∧
        a.bytes_.getD 2 0 = 0x00 ∧ a.bytes_.getD 3 0 = 0x00 := by omega
    refine ⟨iff_of_true rfl hT, iff_of_false (by decide) ?_,
      iff_of_false (by decide) ?_, by decide⟩
    · exact fun h => h.1 hT
    · exact fun h => h.1 hT
  · have hS : a.bytes_.getD 0 0 = 0x20 ∧ a.bytes_.getD 1 0 = 0x02 := by omega
    have hnT : ¬(a.bytes_.getD 0 0 = 0x20 ∧ a.bytes_.getD 1 0 = 0x01 ∧
        a.bytes_.getD 2 0 = 0x00 ∧ a.bytes_.getD 3 0 = 0x00) := by omega
    refine ⟨iff_of_false (by decide) hnT, iff_of_true rfl ⟨hnT, hS⟩,
      iff_of_false (by decide) ?_, by decide⟩
    · exact fun h => h.2 hS
  · have hnT : ¬(a.bytes_.getD 0 0 = 0x20 ∧ a.bytes_.getD 1 0 = 0x01 ∧
        a.bytes_.getD 2 0 = 0x00 ∧ a.bytes_.getD 3 0 = 0x00) := by omega
    have hnS : ¬(a.bytes_.getD 0 0 = 0x20 ∧ a.bytes_.getD 1 0 = 0x02) := by omega
    refine ⟨iff_of_false (by decide) hnT, iff_of_false (by decide) ?_,
      iff_of_true rfl ⟨hnT, hnS⟩, by decide⟩
    · exact fun h => hnS h.2

/-- Witness for C3: the Teredo address `2001::1` classifies as `TEREDO`,
via the theorem applied at that concrete address. -/
theorem type_spec_witness :
    typeOf { bytes_ := [0x20, 0x01, 0, 0, 0, 0, 0, 0, 0, 0, 0, 0, 0, 0, 0, 1],
             scope_ := 0 } = AddrType.TEREDO :=
  (type_spec { bytes_ := [0x20, 0x01, 0, 0, 0, 0, 0, 0, 0, 0, 0, 0, 0, 0, 0, 1],
               scope_ := 0 } ⟨by decide, by decide⟩).1.mpr (by decide)

/-! ## C5: getIPv4For6To4 -/

theorem and_ff (x : Nat) : x &&& 0xFF = x % 256 := by
  have h := Nat.and_pow_two_sub_one_eq_mod x 8
  norm_num at h
  exact h

theorem and_ff00_eq (x : Nat) : x &&& 0xFF00 = ((x >>> 8) % 256) <<< 8 := by
  apply Nat.eq_of_testBit_eq
  intro j
  have h00 : (0xFF00 : Nat) = (2 ^ 8 - 1) <<< 8 := by norm_num [Nat.shiftLeft_eq]
  have h256 : (256 : Nat) = 2 ^ 8 := by norm_num
  rw [h00, h256]
  simp only [Nat.testBit_and, Nat.testBit_shiftLeft, Nat.testBit_mod_two_pow,
    Nat.testBit_shiftRight, Nat.testBit_two_pow_sub_one]
  by_cases hj : 8 ≤ j
  · have e : 8 + (j - 8) = j := by omega
    simp [hj, e, Bool.and_comm]
  · simp [hj]

theorem extract_lo (hi lo : Nat) (hlo : lo < 256) : (hi * 256 + lo) &&& 0xFF = lo := by
  rw [and_ff]
  omega

theorem extract_hi (hi lo : Nat) (hhi : hi < 256) (hlo : lo < 256) :
    ((hi * 256 + lo) &&& 0xFF00) >>> 8 = hi := by
  rw [and_ff00_eq, Nat.shiftLeft_eq, Nat.shiftRight_eq_div_pow,
      Nat.mul_div_cancel _ (Nat.pos_pow_of_pos 8 (by norm_num)),
      Nat.shiftRight_eq_div_pow]
  have e : (2 : Nat) ^ 8 = 256 := by norm_num
  rw [e]
  omega

/-- C5: `getIPv4For6To4` fails (with `TypeMismatchError`, i.e. `none`) iff
the classification is not 6to4; on a 6to4 address it returns exactly
bytes 2, 3, 4, 5 of the buffer as the four IPv4 octets, in that order. -/
theorem getIPv4For6To4_spec : ∀ a : IPAddressV6, WF a →
    ((getIPv4For6To4 a = none ↔ ¬ typeOf a = AddrType.T6TO4) ∧
     (typeOf a = AddrType.T6TO4 →
       getIPv4For6To4 a = some [a.bytes_.getD 2 0, a.bytes_.getD 3 0,
                                a.bytes_.getD 4 0, a.bytes_.getD 5 0])) := by
  intro a hwf
  have hb2 : a.bytes_.getD 2 0 < 256 := byte_lt a hwf 2 (by norm_num)
  have hb3 : a.bytes_.getD 3 0 < 256 := byte_lt a hwf 3 (by norm_num)
  have hb4 : a.bytes_.getD 4 0 < 256 := byte_lt a hwf 4 (by norm_num)
  have hb5 : a.bytes_.getD 5 0 < 256 := byte_lt a hwf 5 (by norm_num)
  have h1 : (unpackInto a.bytes_ 4).getD 1 0 =
      a.bytes_.getD 2 0 * 256 + a.bytes_.getD 3 0 := by
    rw [unpackInto_getD _ _ 1 (by norm_num)]
    exact unpack_eq _ _ hb3 hb2
  have h2 : (unpackInto a.bytes_ 4).getD 2 0 =
      a.bytes_.getD 4 0 * 256 + a.bytes_.getD 5 0 := by
    rw [unpackInto_getD _ _ 2 (by norm_num)]
    exact unpack_eq _ _ hb5 hb4
  constructor
  · unfold getIPv4For6To4 is6To4
    by_cases h : typeOf a = AddrType.T6TO4
    · simp [h]
    · simp [h]
  · intro h
    simp only [getIPv4For6To4, is6To4]
    rw [h]
    rw [h1, h2, extract_hi _ _ hb2 hb3, extract_lo _ _ hb3,
        extract_hi _ _ hb4 hb5, extract_lo _ _ hb5]
    simp

/-- Witness for C5 at the 6to4 address `2002:0102:0304::`: the extracted
IPv4 is `1.2.3.4`. -/
theorem getIPv4For6To4_spec_witness :
    getIPv4For6To4 { bytes_ := [0x20, 0x02, 1, 2, 3, 4, 0, 0, 0, 0, 0, 0, 0, 0, 0, 0],
                     scope_ := 0 } = some [1, 2, 3, 4] :=
  (getIPv4For6To4_spec
    { bytes_ := [0x20, 0x02, 1, 2, 3, 4, 0, 0, 0, 0, 0, 0, 0, 0, 0, 0], scope_ := 0 }
    ⟨by decide, by decide⟩).2 (by decide)

end Folly
